import Mathlib

/-!
Shallow embedding of `src/transport_manager.py`, a small interactive trip
ledger: records are appended, persisted to a CSV file, summarized against a
fixed subscription cost, and charted.

Modelling conventions:
* Monetary amounts (Python floats holding decimal CHF values) are `ℚ`, read
  at their exact decimal value; IEEE rounding, overflow and underflow are
  idealized away.  The non-finite forms `float` also accepts (`"inf"`,
  `"nan"`, ...), whose values have no rational counterpart, are recognized
  by `pyFloatNonfinite` and kept outside the scope of the theorems.
* The CSV file on disk is `Storage := Option CSVFile`; `none` means the file
  does not exist.  A `CSVFile` keeps the header row and the parsed records,
  abstracting the stable textual formatting of the stored fields.
* `input(...).strip()` happens at the prompt, so `AddInputs` carries the
  already-stripped strings the user typed for one `add_entry` interaction.
* `datetime.now()` is the `today` field of `AddInputs`.
* Writing to disk can raise `IOError`; fallible operations return
  `Except IOErr`.  The Python code installs no exception handler around
  `save_data`, so in the session model an `Except.error` propagates and
  terminates the whole command loop, exactly as the uncaught Python
  exception terminates `main`.
-/

/-- A calendar date, the value `datetime.strptime`/`datetime.now` produce. -/
structure Date where
  year : Nat
  month : Nat
  day : Nat
deriving DecidableEq, Repr

/-- One row of the CSV: columns `Date, From, To, Cost_CHF`. -/
structure TripRecord where
  date : Date
  from_loc : String
  to_loc : String
  cost : ℚ
deriving DecidableEq, Repr

/-- The in-memory dataframe: an ordered list of trip rows. -/
abbrev Ledger := List TripRecord

/-- The CSV file content: header row plus data rows. -/
structure CSVFile where
  header : List String
  rows : List TripRecord
deriving DecidableEq, Repr

/-- The file system slot for `CSV_FILE`; `none` when the file is absent. -/
abbrev Storage := Option CSVFile

/-- `CSV_FILE = "2025_09_25.csv"` (line 13). -/
def CSV_FILE : String := "2025_09_25.csv"

/-- `SUBSCRIPTION_COST = 355.00` (line 14). -/
def SUBSCRIPTION_COST : ℚ := 355

/-- The column schema `["Date", "From", "To", "Cost_CHF"]` (line 22). -/
def SCHEMA : List String := ["Date", "From", "To", "Cost_CHF"]

/-- `load_data` (lines 17-22): read the CSV if it exists, otherwise an empty
dataframe with the fixed column schema. -/
def load_data (stor : Storage) : CSVFile :=
  match stor with
  | some f => f
  | none => { header := SCHEMA, rows := [] }

/-- `save_data` (lines 25-28): `df.to_csv(CSV_FILE, index=False)` overwrites
the file with the header row and all data rows. -/
def save_data (df : Ledger) : Storage :=
  some { header := SCHEMA, rows := df }

/-- The I/O failure `df.to_csv` raises when the filesystem is unwritable. -/
inductive IOErr where
  | ioError
deriving DecidableEq, Repr

/-- `save_data` as the fallible call it is in Python: on an unwritable
filesystem `to_csv` raises `IOError` instead of writing. -/
def save_data_ex (writable : Bool) (df : Ledger) : Except IOErr Storage :=
  if writable then Except.ok (save_data df) else Except.error IOErr.ioError

/-- Value of a digit string, most significant digit first. -/
def digitsToNat (cs : List Char) : Nat :=
  cs.foldl (fun a c => 10 * a + (c.toNat - 48)) 0

/-- `cs.all Char.isDigit`. -/
def allDigits (cs : List Char) : Bool :=
  cs.all Char.isDigit

/-- A run of `minLen` to `maxLen` digit characters, as used by the
`%d` / `%m` / `%Y` fields of `strptime`. -/
def parseField (s : List Char) (minLen maxLen : Nat) : Option Nat :=
  if minLen ≤ s.length ∧ s.length ≤ maxLen ∧ allDigits s then
    some (digitsToNat s)
  else
    none

/-- Split a character list at every occurrence of `c`. -/
def splitOnChar (c : Char) : List Char → List (List Char)
  | [] => [[]]
  | x :: xs =>
    if x = c then
      [] :: splitOnChar c xs
    else
      match splitOnChar c xs with
      | [] => [[x]]
      | y :: ys => (x :: y) :: ys

def isLeapYear (y : Nat) : Bool :=
  (y % 4 == 0 && y % 100 != 0) || y % 400 == 0

def daysInMonth (y m : Nat) : Nat :=
  if m = 2 then (if isLeapYear y then 29 else 28)
  else if m = 4 ∨ m = 6 ∨ m = 9 ∨ m = 11 then 30
  else 31

/-- `datetime.strptime(s, "%d.%m.%Y")` (line 69): day and month are one or
two digits, the year exactly four digits, and the day must exist in the
given month (`"31.02.2025"` raises `ValueError`). -/
def parseDate (s : String) : Option Date :=
  match splitOnChar '.' s.data with
  | [ds, ms, ys] =>
    match parseField ds 1 2, parseField ms 1 2, parseField ys 4 4 with
    | some d, some m, some y =>
      if 1 ≤ m ∧ m ≤ 12 ∧ 1 ≤ d ∧ d ≤ daysInMonth y m then
        some { year := y, month := m, day := d }
      else
        none
    | _, _, _ => none
  | _ => none

/-- A `digitpart` of the Python float grammar: digits separated by single
underscores, `digit (["_"] digit)*` — an underscore must sit between two
digits, so `"1_5"` is one but `"_5"`, `"5_"` and `"1__5"` are not. -/
def isDigitPart : List Char → Bool
  | [] => false
  | [c] => c.isDigit
  | c :: '_' :: rest => c.isDigit && isDigitPart rest
  | c :: rest => c.isDigit && isDigitPart rest

/-- Drop the underscore separators of a digitpart. -/
def stripUnderscores (cs : List Char) : List Char :=
  cs.filter (fun c => c ≠ '_')

/-- Numeric value of a digitpart. -/
def digitPartVal (cs : List Char) : Nat :=
  digitsToNat (stripUnderscores cs)

/-- Cut at the first exponent marker `e`/`E`, keeping what follows it. -/
def splitExp : List Char → List Char × Option (List Char)
  | [] => ([], none)
  | c :: rest =>
    if c = 'e' ∨ c = 'E' then ([], some rest)
    else
      match splitExp rest with
      | (m, e) => (c :: m, e)

/-- Cut at the first decimal point, keeping what follows it. -/
def splitDot : List Char → List Char × Option (List Char)
  | [] => ([], none)
  | c :: rest =>
    if c = '.' then ([], some rest)
    else
      match splitDot rest with
      | (m, f) => (c :: m, f)

/-- The mantissa `digitpart`, `digitpart "." [digitpart]` or
`"." digitpart`, returned as a scaled numerator and the number of
fractional digits: `i.f` is `(i * 10^|f| + f) / 10^|f|`. -/
def parseMantissa (cs : List Char) : Option (Nat × Nat) :=
  match splitDot cs with
  | (i, none) =>
    if isDigitPart i then some (digitPartVal i, 0) else none
  | (i, some f) =>
    if i.isEmpty then
      if isDigitPart f then
        some (digitPartVal f, (stripUnderscores f).length)
      else none
    else if f.isEmpty then
      if isDigitPart i then some (digitPartVal i, 0) else none
    else
      if isDigitPart i ∧ isDigitPart f then
        some (digitPartVal i * 10 ^ (stripUnderscores f).length + digitPartVal f,
          (stripUnderscores f).length)
      else none

/-- The exponent after `e`/`E`: an optionally signed digitpart. -/
def parseExp (cs : List Char) : Option (Bool × Nat) :=
  match cs with
  | '+' :: rest => if isDigitPart rest then some (false, digitPartVal rest) else none
  | '-' :: rest => if isDigitPart rest then some (true, digitPartVal rest) else none
  | _ => if isDigitPart cs then some (false, digitPartVal cs) else none

/-- An unsigned finite form of the float grammar: a mantissa, optionally
followed by a decimal exponent (`"12"`, `"12.5"`, `".5"`, `"1_5"`,
`"1e5"`, `".5e-1_0"`), read at its exact decimal value. -/
def parseUnsignedCost (cs : List Char) : Option ℚ :=
  match splitExp cs with
  | (m, eopt) =>
    match parseMantissa m, eopt with
    | some (v, k), none => some (mkRat v (10 ^ k))
    | some (v, k), some es =>
      match parseExp es with
      | some (false, e) => some (mkRat (v * 10 ^ e : Nat) (10 ^ k))
      | some (true, e) => some (mkRat v (10 ^ k * 10 ^ e))
      | none => none
    | none, _ => none

/-- The non-finite forms `float` also accepts: `"inf"`, `"infinity"` and
`"nan"`, case-insensitive, with an optional sign.  Their IEEE values have
no rational counterpart, so the ℚ ledger model leaves these cost inputs
out of scope rather than assigning them a wrong finite value. -/
def pyFloatNonfinite (s : String) : Bool :=
  let body :=
    match s.data.map Char.toLower with
    | '+' :: rest => rest
    | '-' :: rest => rest
    | cs => cs
  body = ['i', 'n', 'f'] || body = ['i', 'n', 'f', 'i', 'n', 'i', 't', 'y'] ||
    body = ['n', 'a', 'n']

/-- `float(s)` on the stripped cost input (line 81): an optional sign then a
finite decimal form — digitparts with underscore separators, optional
fraction and optional exponent — read at its exact decimal value (the ℚ
convention idealizes away IEEE rounding, overflow and underflow).  Together
with the non-finite forms of `pyFloatNonfinite` this covers the ASCII
acceptance set of `float`; everything else raises `ValueError`. -/
def parseCost (s : String) : Option ℚ :=
  match s.data with
  | '-' :: rest => Option.map (fun q => -q) (parseUnsignedCost rest)
  | '+' :: rest => parseUnsignedCost rest
  | cs => parseUnsignedCost cs

/-- Exactly the cost inputs on which `float` raises `ValueError` and line 82
takes the abort branch: neither a finite decimal form nor an
infinity/nan form. -/
def float_value_error (s : String) : Bool :=
  (parseCost s).isNone && !pyFloatNonfinite s

/-- `total = df["Cost_CHF"].sum()` (line 44). -/
def total (df : Ledger) : ℚ :=
  (df.map TripRecord.cost).sum

/-- `remaining = SUBSCRIPTION_COST - total` (line 45). -/
def remaining (df : Ledger) : ℚ :=
  SUBSCRIPTION_COST - total df

/-- `coverage = (total / SUBSCRIPTION_COST) * 100` (line 46). -/
def coverage (df : Ledger) : ℚ :=
  total df / SUBSCRIPTION_COST * 100

/-- The two summary messages `display_data` can end with (lines 53-56). -/
inductive Status where
  | under (need : ℚ)
  | over (excess : ℚ)
deriving DecidableEq, Repr

/-- The branch taken at lines 53-56: `if remaining > 0` report the amount
still needed, `else` report `abs(remaining)` as the excess. -/
def classify (df : Ledger) : Status :=
  if remaining df > 0 then Status.under (remaining df)
  else Status.over |remaining df|

/-- The stripped answers a user gives to the four `add_entry` prompts,
together with `datetime.now()` at that moment. -/
structure AddInputs where
  today : Date
  date_input : String
  from_loc : String
  to_loc : String
  cost_input : String
deriving DecidableEq, Repr

/-- Lines 64-73: blank date input means today; otherwise `strptime`, and on
`ValueError` a warning is printed and today is used instead. -/
def chooseDate (today : Date) (date_input : String) : Date :=
  if date_input = "" then today
  else
    match parseDate date_input with
    | some d => d
    | none => today

/-- The row `pd.DataFrame({...})` builds at lines 87-89 from the chosen date,
the stripped locations, and the parsed cost. -/
def new_row (inp : AddInputs) (cost : ℚ) : TripRecord :=
  { date := chooseDate inp.today inp.date_input,
    from_loc := inp.from_loc, to_loc := inp.to_loc, cost := cost }

/-- `add_entry` (lines 59-95): pick the date, parse the cost (aborting the
whole add and returning `df` unchanged on `ValueError`), append the new row,
and persist via `save_data` — whose `IOError`, having no handler, escapes.
On the non-finite cost forms of `pyFloatNonfinite` the real program appends
a row whose cost the ℚ ledger cannot carry; no theorem below evaluates
`add_entry` at such an input. -/
def add_entry (writable : Bool) (df : Ledger) (stor : Storage) (inp : AddInputs) :
    Except IOErr (Ledger × Storage) :=
  match parseCost inp.cost_input with
  | none => Except.ok (df, stor)
  | some cost =>
    let df2 := df ++ [new_row inp cost]
    match save_data_ex writable df2 with
    | Except.ok stor2 => Except.ok (df2, stor2)
    | Except.error e => Except.error e

/-- The arguments `plot_coverage` hands to `plt.pie` and `plt.title`. -/
structure PieChart where
  labels : List String
  sizes : List ℚ
  colors : List String
deriving DecidableEq, Repr

/-- `plot_coverage` (lines 98-138): nothing is drawn for an empty dataframe;
otherwise the two pie segments are break-even amount and excess when the
total exceeds the subscription, and used and remaining otherwise. -/
def plot_coverage (df : Ledger) : Option PieChart :=
  if df.isEmpty then none
  else
    let t := total df
    let rem := max 0 (SUBSCRIPTION_COST - t)
    let exceeded := max 0 (t - SUBSCRIPTION_COST)
    if exceeded > 0 then
      some { labels := ["Break-even amount", "Excess usage"],
             sizes := [SUBSCRIPTION_COST, exceeded],
             colors := ["#2E8B57", "#FF6347"] }
    else
      some { labels := ["Used", "Remaining"],
             sizes := [t, rem],
             colors := ["#4169E1", "#D3D3D3"] }

/-- One menu choice of the `main` loop (lines 152-164): `"1"` show, `"2"`
add (with the answers the user will type), `"3"` chart, anything else an
invalid choice.  Choice `"4"` ends the command list instead. -/
inductive Cmd where
  | showData
  | addTrip (inp : AddInputs)
  | plotChart
  | other (s : String)

/-- One iteration of the `main` loop body: `display_data` and
`plot_coverage` do not touch `df`; only `add_entry` rebinds it. -/
def session_step (writable : Bool) (df : Ledger) (stor : Storage) :
    Cmd → Except IOErr (Ledger × Storage)
  | Cmd.showData => Except.ok (df, stor)
  | Cmd.addTrip inp => add_entry writable df stor inp
  | Cmd.plotChart => Except.ok (df, stor)
  | Cmd.other _ => Except.ok (df, stor)

/-- The `main` loop (lines 145-164) run over a finite list of choices.  An
uncaught `IOError` aborts the remaining iterations, as the Python exception
propagates out of `main` and kills the process. -/
def runSession (writable : Bool) (df : Ledger) (stor : Storage) :
    List Cmd → Except IOErr (Ledger × Storage)
  | [] => Except.ok (df, stor)
  | c :: cs =>
    match session_step writable df stor c with
    | Except.ok (df2, stor2) => runSession writable df2 stor2 cs
    | Except.error e => Except.error e

/-! ## Properties -/

/-- C2: the summary computes `total` as the sum of the `Cost_CHF` column
(`0` on the empty ledger) and `coverage` as exactly `100 * total / 355`;
in particular `total = 0` gives coverage `0` and `total = 355` gives
coverage `100`. -/
theorem summary_total_and_coverage (L : Ledger) :
    total L = (L.map TripRecord.cost).sum ∧
    total ([] : Ledger) = 0 ∧
    coverage L = 100 * total L / SUBSCRIPTION_COST ∧
    (total L = 0 → coverage L = 0) ∧
    (total L = SUBSCRIPTION_COST → coverage L = 100) := by
  refine ⟨rfl, rfl, ?_, ?_, ?_⟩
  · unfold coverage
    ring
  · intro h
    simp [coverage, h]
  · intro h
    rw [coverage, h]
    norm_num [SUBSCRIPTION_COST]

/-- Witness for C2: the empty ledger has coverage 0, and a single trip of
355 CHF has coverage exactly 100. -/
theorem summary_total_and_coverage_witness :
    coverage ([] : Ledger) = 0 ∧
    coverage [{ date := ⟨2025, 9, 25⟩, from_loc := "A", to_loc := "B",
                cost := 355 }] = 100 :=
  ⟨(summary_total_and_coverage []).2.2.2.1 rfl,
   (summary_total_and_coverage _).2.2.2.2 (by simp [total, SUBSCRIPTION_COST])⟩

/-- C3: a ledger whose total is exactly the subscription cost is reported by
the `remaining > 0` branch split as exceeded by 0, never as "need 0 more";
the under branch is taken only for strictly positive remaining. -/
theorem classification_tie_break (L : Ledger) :
    (total L = SUBSCRIPTION_COST → classify L = Status.over 0) ∧
    (∀ q : ℚ, classify L = Status.under q → 0 < q) := by
  constructor
  · intro h
    have hrem : remaining L = 0 := by
      rw [remaining, h]
      ring
    simp [classify, hrem]
  · intro q hq
    unfold classify at hq
    split at hq
    · rename_i hr
      injection hq with h1
      rw [h1] at hr
      exact hr
    · exact absurd hq (by simp)

/-- Witness for C3: one trip of exactly 355 CHF is classified as exceeded
by 0. -/
theorem classification_tie_break_witness :
    classify [{ date := ⟨2025, 9, 25⟩, from_loc := "A", to_loc := "B",
                cost := 355 }] = Status.over 0 :=
  (classification_tie_break _).1 (by simp [total, SUBSCRIPTION_COST])

/-- Sanity of the `float` model at the forms `float` accepts beyond plain
decimals — scientific notation, underscore separators, signed non-finite
names — and at genuinely rejected strings. -/
theorem parseCost_float_fidelity :
    parseCost "1e5" = some 100000 ∧
    parseCost "1_5" = some 15 ∧
    parseCost "12.50" = some (mkRat 1250 100) ∧
    parseCost "-2.5e-1" = some (mkRat (-25) 100) ∧
    pyFloatNonfinite "inf" = true ∧
    pyFloatNonfinite "-Infinity" = true ∧
    pyFloatNonfinite "NaN" = true ∧
    float_value_error "abc" = true ∧
    float_value_error "1e" = true ∧
    float_value_error "1__5" = true := by
  decide

/-- C4: whenever the cost input makes `float` raise `ValueError` — it is
neither a finite decimal form nor an infinity/nan form — `add_entry`
aborts: the ledger comes back unchanged, whatever the date, origin and
destination inputs were, and the storage is not written. -/
theorem invalid_cost_aborts (writable : Bool) (df : Ledger) (stor : Storage)
    (inp : AddInputs) (h : float_value_error inp.cost_input = true) :
    add_entry writable df stor inp = Except.ok (df, stor) := by
  have hnone : parseCost inp.cost_input = none := by
    simp only [float_value_error, Bool.and_eq_true,
      Option.isNone_iff_eq_none] at h
    exact h.1
  simp [add_entry, hnone]

/-- Witness for C4: adding with cost input `"abc"` leaves an empty ledger
and a missing file untouched. -/
theorem invalid_cost_aborts_witness :
    add_entry true [] none
      { today := ⟨2025, 9, 25⟩, date_input := "01.09.2025", from_loc := "A",
        to_loc := "B", cost_input := "abc" } = Except.ok ([], none) :=
  invalid_cost_aborts true [] none _ (by decide)

/-- C5 (state of the code): when the filesystem is unwritable and the cost
input parses, the `IOError` raised inside `save_data` escapes `add_entry`
— which has no handler — and aborts the whole remaining session, however
many commands were still pending: no surviving in-memory ledger state is
ever returned.  The spec instead asks for the failure to be fatal to that
one operation only. -/
theorem unwritable_save_terminates_session (df : Ledger) (stor : Storage)
    (inp : AddInputs) (c : ℚ) (h : parseCost inp.cost_input = some c)
    (rest : List Cmd) :
    add_entry false df stor inp = Except.error IOErr.ioError ∧
    runSession false df stor (Cmd.addTrip inp :: rest) =
      Except.error IOErr.ioError := by
  have h1 : add_entry false df stor inp = Except.error IOErr.ioError := by
    simp [add_entry, h, save_data_ex]
  exact ⟨h1, by simp [runSession, session_step, h1]⟩

/-- Witness for C5: on a read-only filesystem, adding a 50 CHF trip kills
the session even though a further command was pending. -/
theorem unwritable_save_terminates_session_witness :
    runSession false [] none
      [Cmd.addTrip { today := ⟨2025, 9, 25⟩, date_input := "", from_loc := "A",
                     to_loc := "B", cost_input := "50" },
       Cmd.showData] = Except.error IOErr.ioError :=
  (unwritable_save_terminates_session [] none _ 50 (by decide) [Cmd.showData]).2

/-- C6: a nonblank date input that fails to parse as `DD.MM.YYYY` — also a
well-formed but impossible calendar date — does not abort the add: today's
date is substituted and the entry is still appended and persisted with the
origin, destination and cost that were entered. -/
theorem invalid_date_falls_back_to_today (df : Ledger) (stor : Storage)
    (inp : AddInputs) (c : ℚ) (hne : inp.date_input ≠ "")
    (hdate : parseDate inp.date_input = none)
    (hcost : parseCost inp.cost_input = some c) :
    new_row inp c = { date := inp.today, from_loc := inp.from_loc,
                      to_loc := inp.to_loc, cost := c } ∧
    add_entry true df stor inp =
      Except.ok (df ++ [new_row inp c], save_data (df ++ [new_row inp c])) := by
  constructor
  · simp [new_row, chooseDate, hne, hdate]
  · simp [add_entry, hcost, save_data_ex]

/-- Witness for C6: date input `"31.02.2025"` (February has no 31st) still
adds the 12 CHF trip, dated today. -/
theorem invalid_date_falls_back_to_today_witness :
    new_row { today := ⟨2025, 9, 26⟩, date_input := "31.02.2025",
              from_loc := "Basel", to_loc := "Bern", cost_input := "12" } 12 =
      { date := ⟨2025, 9, 26⟩, from_loc := "Basel", to_loc := "Bern",
        cost := 12 } :=
  (invalid_date_falls_back_to_today [] none _ 12 (by decide) (by decide)
    (by decide)).1

/-- C7: for a non-empty ledger the two pie segments compare the total with
the subscription: `total ≤ 355` charts used against remaining, and
`total > 355` charts the break-even 355 against the excess. -/
theorem plot_two_segments (L : Ledger) (h : L ≠ []) :
    (total L ≤ SUBSCRIPTION_COST →
      plot_coverage L = some { labels := ["Used", "Remaining"],
                               sizes := [total L, SUBSCRIPTION_COST - total L],
                               colors := ["#4169E1", "#D3D3D3"] }) ∧
    (SUBSCRIPTION_COST < total L →
      plot_coverage L = some { labels := ["Break-even amount", "Excess usage"],
                               sizes := [SUBSCRIPTION_COST,
                                         total L - SUBSCRIPTION_COST],
                               colors := ["#2E8B57", "#FF6347"] }) := by
  have hne : L.isEmpty = false := by
    cases L with
    | nil => exact absurd rfl h
    | cons x xs => rfl
  constructor
  · intro hle
    have hexc : max 0 (total L - SUBSCRIPTION_COST) = 0 :=
      max_eq_left (by linarith)
    have hrem : max 0 (SUBSCRIPTION_COST - total L) = SUBSCRIPTION_COST - total L :=
      max_eq_right (by linarith)
    simp [plot_coverage, hne, hexc, hrem]
  · intro hlt
    have hexc : max 0 (total L - SUBSCRIPTION_COST) = total L - SUBSCRIPTION_COST :=
      max_eq_right (by linarith)
    have hpos : 0 < total L - SUBSCRIPTION_COST := by linarith
    simp [plot_coverage, hne, hexc, hpos]

/-- Witness for C7: a single 400 CHF trip exceeds the 355 CHF subscription,
so the chart shows the break-even amount against the excess. -/
theorem plot_two_segments_witness :
    plot_coverage [{ date := ⟨2025, 9, 25⟩, from_loc := "A", to_loc := "B",
                     cost := 400 }] =
      some { labels := ["Break-even amount", "Excess usage"],
             sizes := [SUBSCRIPTION_COST,
                       total [{ date := ⟨2025, 9, 25⟩, from_loc := "A",
                                to_loc := "B", cost := 400 }] - SUBSCRIPTION_COST],
             colors := ["#2E8B57", "#FF6347"] } :=
  (plot_two_segments _ (by decide)).2 (by simp [total, SUBSCRIPTION_COST]; decide)

/-- C8: loading when the CSV file is absent returns, without any failure,
the empty ledger carrying the column schema `Date, From, To, Cost_CHF`. -/
theorem load_missing_file_empty :
    load_data none = { header := ["Date", "From", "To", "Cost_CHF"],
                       rows := [] } := rfl

/-- A successful `add_entry` returns either the unchanged ledger (aborted
cost parse) or the ledger with exactly one row appended at the end. -/
theorem add_entry_ledger_growth {w : Bool} {df : Ledger} {stor : Storage}
    {inp : AddInputs} {df2 : Ledger} {stor2 : Storage}
    (h : add_entry w df stor inp = Except.ok (df2, stor2)) :
    df2 = df ∨ ∃ r : TripRecord, df2 = df ++ [r] := by
  simp only [add_entry] at h
  split at h
  · rw [Except.ok.injEq, Prod.mk.injEq] at h
    exact Or.inl h.1.symm
  · split at h
    · rw [Except.ok.injEq, Prod.mk.injEq] at h
      exact Or.inr ⟨_, h.1.symm⟩
    · exact absurd h (by simp)

/-- Any loop iteration that completes returns the unchanged ledger or the
ledger with one appended row. -/
theorem session_step_ledger_growth {w : Bool} {df : Ledger} {stor : Storage}
    {c : Cmd} {df2 : Ledger} {stor2 : Storage}
    (h : session_step w df stor c = Except.ok (df2, stor2)) :
    df2 = df ∨ ∃ r : TripRecord, df2 = df ++ [r] := by
  cases c with
  | showData =>
    simp only [session_step, Except.ok.injEq, Prod.mk.injEq] at h
    exact Or.inl h.1.symm
  | addTrip inp => exact add_entry_ledger_growth h
  | plotChart =>
    simp only [session_step, Except.ok.injEq, Prod.mk.injEq] at h
    exact Or.inl h.1.symm
  | other s =>
    simp only [session_step, Except.ok.injEq, Prod.mk.injEq] at h
    exact Or.inl h.1.symm

/-- Across any completed run of the loop, the initial ledger stays an
unchanged initial segment of the final one. -/
theorem runSession_ledger_growth (cmds : List Cmd) :
    ∀ {w : Bool} {df : Ledger} {stor : Storage} {df2 : Ledger}
      {stor2 : Storage},
    runSession w df stor cmds = Except.ok (df2, stor2) →
    ∃ t : Ledger, df ++ t = df2 := by
  induction cmds with
  | nil =>
    intro w df stor df2 stor2 h
    simp only [runSession, Except.ok.injEq, Prod.mk.injEq] at h
    exact ⟨[], by simp [h.1]⟩
  | cons c cs ih =>
    intro w df stor df2 stor2 h
    simp only [runSession] at h
    split at h
    · rename_i df1stor1 heq
      obtain ⟨t, ht⟩ := ih h
      rcases session_step_ledger_growth heq with h1 | ⟨r, h1⟩
      · exact ⟨t, by rw [← h1]; exact ht⟩
      · refine ⟨[r] ++ t, ?_⟩
        rw [h1] at ht
        rw [← List.append_assoc]
        exact ht
    · exact absurd h (by simp)

/-- C9: "show" and "chart" leave the in-memory ledger untouched, a
successful "add" at most appends one row at the end, and across any
completed sequence of session commands the earlier ledger is an unchanged
initial segment of the later one; nothing is ever deleted, edited or
reordered. -/
theorem session_ledger_only_grows (w : Bool) (df : Ledger) (stor : Storage)
    (cmds : List Cmd) (df2 : Ledger) (stor2 : Storage)
    (h : runSession w df stor cmds = Except.ok (df2, stor2)) :
    (∃ t : Ledger, df ++ t = df2) ∧
    session_step w df stor Cmd.showData = Except.ok (df, stor) ∧
    session_step w df stor Cmd.plotChart = Except.ok (df, stor) ∧
    (∀ inp df3 stor3, add_entry w df stor inp = Except.ok (df3, stor3) →
      df3 = df ∨ ∃ r : TripRecord, df3 = df ++ [r]) :=
  ⟨runSession_ledger_growth cmds h, rfl, rfl,
   fun _ _ _ hadd => add_entry_ledger_growth hadd⟩

/-- Witness for C9: a session that adds one 50 CHF trip and then shows the
data completes, and showing data never touches the ledger. -/
theorem session_ledger_only_grows_witness :
    session_step true [] none Cmd.showData = Except.ok ([], none) :=
  (session_ledger_only_grows true [] none
    [Cmd.addTrip { today := ⟨2025, 9, 26⟩, date_input := "", from_loc := "A",
                   to_loc := "B", cost_input := "50" }]
    [{ date := ⟨2025, 9, 26⟩, from_loc := "A", to_loc := "B", cost := 50 }]
    (some { header := SCHEMA,
            rows := [{ date := ⟨2025, 9, 26⟩, from_loc := "A", to_loc := "B",
                       cost := 50 }] })
    rfl).2.1

/-- C10: any cost input that parses — zero and negative amounts included,
no range check exists — is appended and persisted as given, so an add with
a negative cost strictly decreases the ledger total. -/
theorem add_accepts_negative_cost (df : Ledger) (stor : Storage)
    (inp : AddInputs) (c : ℚ) (hc : parseCost inp.cost_input = some c) :
    (new_row inp c).cost = c ∧
    add_entry true df stor inp =
      Except.ok (df ++ [new_row inp c], save_data (df ++ [new_row inp c])) ∧
    total (df ++ [new_row inp c]) = total df + c ∧
    (c < 0 → total (df ++ [new_row inp c]) < total df) := by
  have htot : total (df ++ [new_row inp c]) = total df + c := by
    simp [total, new_row]
  refine ⟨rfl, ?_, htot, ?_⟩
  · simp [add_entry, hc, save_data_ex]
  · intro hneg
    rw [htot]
    linarith

/-- Witness for C10: adding a trip with cost input `"-10"` appends a row of
cost −10 and makes the total drop below what it was. -/
theorem add_accepts_negative_cost_witness :
    total (([] : Ledger) ++
        [new_row { today := ⟨2025, 9, 26⟩, date_input := "", from_loc := "A",
                   to_loc := "B", cost_input := "-10" } (-10)]) <
      total ([] : Ledger) :=
  (add_accepts_negative_cost [] none _ (-10) (by decide)).2.2.2 (by decide)
